import Mathlib

/-!
Verification of the English-for-Kids backend (`src/main.py`, `src/schemas.py`)
against its natural-language specification.

Documents of the schemaless store are modelled as association lists from
string keys to `Value`s, mirroring Python dicts (insertion order kept,
assignment overwrites in place, deletion preserves the order of the rest).
The document-store adapter (`database.py`, imported by `main.py` but not part
of the sources) is modelled from the specification, §4.1.
-/

/-- A value stored in a document field: a string, an integer, a store-assigned
opaque identifier (ObjectId, modelled by a natural number), or null. -/
inductive Value where
  | str : String → Value
  | int : Int → Value
  | oid : Nat → Value
  | null : Value
deriving DecidableEq, Repr

/-- Python `str()` applied to a field value; for an opaque identifier this is
its decimal rendering (the concrete digits are irrelevant to every claim). -/
def Value.toStr : Value → String
  | .str s => s
  | .int i => toString i
  | .oid n => toString n
  | .null => "None"

/-- A document: a Python dict, modelled as an ordered association list. -/
abbrev Doc := List (String × Value)

/-- Dict lookup `doc[k]`: first binding of the key (a dict has at most one). -/
def Doc.lookup : Doc → String → Option Value
  | [], _ => none
  | (k, v) :: rest, key => if k = key then some v else Doc.lookup rest key

/-- Dict removal `doc.pop(k)`: drop the binding of `k`, keeping the order of the rest. -/
def Doc.erase : Doc → String → Doc
  | [], _ => []
  | p :: rest, key => if p.1 = key then Doc.erase rest key else p :: Doc.erase rest key

/-- Replace every binding of `key` by `(key, v)` in place. -/
def Doc.assignIn : Doc → String → Value → Doc
  | [], _, _ => []
  | p :: rest, key, v => (if p.1 = key then (key, v) else p) :: Doc.assignIn rest key v

/-- Dict assignment `doc[k] = v`: overwrite in place when the key is present, else append. -/
def Doc.assign (d : Doc) (key : String) (v : Value) : Doc :=
  match d.lookup key with
  | some _ => d.assignIn key v
  | none => d ++ [(key, v)]

/-- The keys of a document, in order. -/
def Doc.keys (d : Doc) : List String :=
  List.map Prod.fst d

/-- From `main.py` lines 21-27: `serialize_doc`. -/
def serialize_doc (doc : Doc) : Doc :=
  if doc = [] then doc
  else
    match doc.lookup "_id" with
    | some v => (doc.erase "_id").assign "id" (Value.str v.toStr)
    | none => doc

/-- From `main.py` lines 30-31: `serialize_list`. -/
def serialize_list (docs : List Doc) : List Doc :=
  docs.map serialize_doc

-- Basic facts about the dict model.

theorem Doc.lookup_append (a b : Doc) (k : String) :
    Doc.lookup (a ++ b) k =
      match a.lookup k with
      | some v => some v
      | none => b.lookup k := by
  induction a with
  | nil => rfl
  | cons p rest ih =>
    by_cases h : p.1 = k
    · simp [Doc.lookup, h]
    · simpa [Doc.lookup, h] using ih

theorem Doc.lookup_erase_self (d : Doc) (key : String) :
    (d.erase key).lookup key = none := by
  induction d with
  | nil => rfl
  | cons p rest ih =>
    by_cases h : p.1 = key
    · simpa [Doc.erase, h] using ih
    · simpa [Doc.erase, Doc.lookup, h] using ih

theorem Doc.lookup_erase_ne (d : Doc) (key k : String) (hk : k ≠ key) :
    (d.erase key).lookup k = d.lookup k := by
  induction d with
  | nil => rfl
  | cons p rest ih =>
    obtain ⟨pk, pv⟩ := p
    by_cases h : pk = key
    · have hne : ¬ key = k := Ne.symm hk
      simp [Doc.erase, Doc.lookup, h, hne, ih]
    · by_cases h2 : pk = k
      · simp [Doc.erase, Doc.lookup, h, h2, hk]
      · simp [Doc.erase, Doc.lookup, h, h2, ih]

theorem Doc.lookup_assignIn_self (d : Doc) (key : String) (v : Value)
    (h : (d.lookup key).isSome) : (d.assignIn key v).lookup key = some v := by
  induction d with
  | nil => simp [Doc.lookup] at h
  | cons p rest ih =>
    obtain ⟨pk, pv⟩ := p
    simp only [Doc.assignIn]
    by_cases hp : pk = key
    · rw [if_pos hp]
      simp [Doc.lookup]
    · rw [if_neg hp]
      simp only [Doc.lookup, hp, if_false] at h
      simp [Doc.lookup, hp, ih h]

theorem Doc.lookup_assignIn_ne (d : Doc) (key k : String) (v : Value) (hk : k ≠ key) :
    (d.assignIn key v).lookup k = d.lookup k := by
  induction d with
  | nil => rfl
  | cons p rest ih =>
    obtain ⟨pk, pv⟩ := p
    simp only [Doc.assignIn]
    by_cases hp : pk = key
    · rw [if_pos hp]
      have hne : ¬ key = k := Ne.symm hk
      simp [Doc.lookup, hne, hp, ih]
    · rw [if_neg hp]
      by_cases h2 : pk = k
      · simp [Doc.lookup, h2]
      · simp [Doc.lookup, h2, ih]

theorem Doc.lookup_assign_self (d : Doc) (key : String) (v : Value) :
    (d.assign key v).lookup key = some v := by
  unfold Doc.assign
  cases hd : d.lookup key with
  | some v₀ => exact d.lookup_assignIn_self key v (by rw [hd]; rfl)
  | none => rw [Doc.lookup_append, hd]; simp [Doc.lookup]

theorem Doc.lookup_assign_ne (d : Doc) (key k : String) (v : Value) (hk : k ≠ key) :
    (d.assign key v).lookup k = d.lookup k := by
  unfold Doc.assign
  cases hd : d.lookup key with
  | some v₀ => exact d.lookup_assignIn_ne key k v hk
  | none =>
    rw [Doc.lookup_append]
    cases h2 : d.lookup k with
    | none =>
      have hne : ¬ key = k := Ne.symm hk
      simp [Doc.lookup, hne]
    | some v₀ => rfl

theorem Doc.keys_erase_not_mem (d : Doc) (key : String) :
    key ∉ (d.erase key).keys := by
  induction d with
  | nil => simp [Doc.erase, Doc.keys]
  | cons p rest ih =>
    obtain ⟨pk, pv⟩ := p
    by_cases h : pk = key
    · simpa [Doc.erase, h] using ih
    · intro hmem
      simp only [Doc.erase, h, if_false, Doc.keys, List.map_cons, List.mem_cons] at hmem
      rcases hmem with hmem | hmem
      · exact h hmem.symm
      · exact ih hmem

theorem Doc.assign_ne_nil (d : Doc) (key : String) (v : Value) :
    d.assign key v ≠ [] := by
  unfold Doc.assign
  cases hd : d.lookup key with
  | none => simp
  | some v₀ =>
    cases d with
    | nil => simp [Doc.lookup] at hd
    | cons p rest => simp [Doc.assignIn]

theorem Doc.keys_assignIn_subset (d : Doc) (key : String) (v : Value) (k : String)
    (hk : k ≠ key) (hmem : k ∈ (d.assignIn key v).keys) : k ∈ d.keys := by
  induction d with
  | nil => simp [Doc.assignIn, Doc.keys] at hmem
  | cons p rest ih =>
    obtain ⟨pk, pv⟩ := p
    by_cases hp : pk = key
    · simp only [Doc.assignIn, hp, if_true, Doc.keys, List.map_cons, List.mem_cons] at hmem
      rcases hmem with hmem | hmem
      · exact absurd hmem hk
      · exact List.mem_cons_of_mem _ (ih hmem)
    · simp only [Doc.assignIn, hp, if_false, Doc.keys, List.map_cons, List.mem_cons] at hmem
      rcases hmem with hmem | hmem
      · exact List.mem_cons.mpr (Or.inl hmem)
      · exact List.mem_cons_of_mem _ (ih hmem)

/-- An assignment never introduces a key other than its own. -/
theorem Doc.keys_assign_subset (d : Doc) (key : String) (v : Value) (k : String)
    (hk : k ≠ key) (hmem : k ∈ (d.assign key v).keys) : k ∈ d.keys := by
  unfold Doc.assign at hmem
  cases hd : d.lookup key with
  | some v₀ =>
    rw [hd] at hmem
    exact d.keys_assignIn_subset key v k hk hmem
  | none =>
    rw [hd] at hmem
    simp only [Doc.keys, List.map_append, List.mem_append] at hmem
    rcases hmem with hmem | hmem
    · exact hmem
    · simp only [List.map_cons, List.map_nil, List.mem_singleton] at hmem
      exact absurd hmem hk

-- ------------------------------------------------------------------
-- Claims about the serialization layer (pure functions of main.py).
-- ------------------------------------------------------------------

/-- C3: `serialize_doc` on a non-empty document removes the internal `_id`
field when present and replaces it by a plain `id` field holding its string
form, preserving every other field; when `_id` is absent the document is
returned unchanged (so no `id` field is added); an empty/falsy input is
returned unchanged. -/
theorem serialize_doc_spec (d : Doc) :
    (d = [] → serialize_doc d = d) ∧
    (∀ v : Value, d.lookup "_id" = some v →
      (serialize_doc d).lookup "_id" = none ∧
      (serialize_doc d).lookup "id" = some (Value.str v.toStr) ∧
      (∀ k : String, k ≠ "_id" → k ≠ "id" →
        (serialize_doc d).lookup k = d.lookup k)) ∧
    (d.lookup "_id" = none → serialize_doc d = d) := by
  by_cases hnil : d = []
  · subst hnil
    refine ⟨fun _ => rfl, fun v hv => ?_, fun _ => rfl⟩
    simp [Doc.lookup] at hv
  · refine ⟨fun h => absurd h hnil, fun v hv => ?_, fun hnone => ?_⟩
    · have hser : serialize_doc d = (d.erase "_id").assign "id" (Value.str v.toStr) := by
        simp [serialize_doc, hnil, hv]
      refine ⟨?_, ?_, fun k hk1 hk2 => ?_⟩
      · rw [hser, Doc.lookup_assign_ne _ _ _ _ (by decide), Doc.lookup_erase_self]
      · rw [hser, Doc.lookup_assign_self]
      · rw [hser, Doc.lookup_assign_ne _ _ _ _ hk2, Doc.lookup_erase_ne _ _ _ hk1]
    · simp [serialize_doc, hnil, hnone]

/-- C3 witness: evaluation at a concrete word-like document carrying `_id`. -/
theorem serialize_doc_spec_witness :
    (serialize_doc [("_id", Value.oid 5), ("english", Value.str "red")]).lookup "_id"
        = none ∧
    (serialize_doc [("_id", Value.oid 5), ("english", Value.str "red")]).lookup "id"
        = some (Value.str (Value.oid 5).toStr) ∧
    (serialize_doc [("_id", Value.oid 5), ("english", Value.str "red")]).lookup "english"
        = Doc.lookup [("_id", Value.oid 5), ("english", Value.str "red")] "english" := by
  have h := (serialize_doc_spec [("_id", Value.oid 5), ("english", Value.str "red")]).2.1
    (Value.oid 5) (by decide)
  exact ⟨h.1, h.2.1, h.2.2 "english" (by decide) (by decide)⟩

/-- C9: `serialize_list` applies `serialize_doc` elementwise, preserving
length and order; the empty sequence maps to the empty sequence. -/
theorem serialize_list_spec (docs : List Doc) :
    (serialize_list docs).length = docs.length ∧
    (∀ i : Nat, (serialize_list docs)[i]? = (docs[i]?).map serialize_doc) ∧
    serialize_list [] = [] := by
  refine ⟨by simp [serialize_list], fun i => ?_, rfl⟩
  simp [serialize_list]

/-- C10: `serialize_doc` is idempotent: a second application finds no `_id`
field left (or an input it already returned unchanged) and is the identity. -/
theorem serialize_doc_idem (d : Doc) :
    serialize_doc (serialize_doc d) = serialize_doc d := by
  by_cases hnil : d = []
  · subst hnil; rfl
  · cases hid : d.lookup "_id" with
    | none =>
      have h1 : serialize_doc d = d := by simp [serialize_doc, hnil, hid]
      rw [h1]
      exact h1
    | some v =>
      have h1 : serialize_doc d = (d.erase "_id").assign "id" (Value.str v.toStr) := by
        simp [serialize_doc, hnil, hid]
      have hsnil : (d.erase "_id").assign "id" (Value.str v.toStr) ≠ [] :=
        Doc.assign_ne_nil _ _ _
      have hsid : ((d.erase "_id").assign "id" (Value.str v.toStr)).lookup "_id" = none := by
        rw [Doc.lookup_assign_ne _ _ _ _ (by decide), Doc.lookup_erase_self]
      rw [h1]
      simp [serialize_doc, hsnil, hsid]

-- ------------------------------------------------------------------
-- The document store (modelled from the spec) and the HTTP routes.
-- ------------------------------------------------------------------

/-- Value of one entry of a response dictionary: a scalar, a flat dict of
scalars, a list of flat dicts, or a list of strings. Every response body of
`main.py` fits this shape. -/
inductive PyField where
  | val : Value → PyField
  | dict : Doc → PyField
  | docs : List Doc → PyField
  | strs : List String → PyField
deriving DecidableEq, Repr

/-- A Python dict handed to the framework as a response body. -/
abbrev PyDict := List (String × PyField)

/-- A route's response body: a dict, or a bare list of documents. -/
inductive Body where
  | dict : PyDict → Body
  | docs : List Doc → Body
deriving DecidableEq, Repr

/-- Wrap a document as a response dict of scalar entries. -/
def pyOfDoc (d : Doc) : PyDict :=
  List.map (fun p => (p.1, PyField.val p.2)) d

/-- Outcome of a route: a 200 JSON response, or an `HTTPException`
(status code, detail). -/
inductive Response where
  | ok : Body → Response
  | httpError : Nat → String → Response
deriving DecidableEq, Repr

/-- Modelled from the spec: the document store behind `database.py` (imported
by `main.py` but not among the sources, §4.1). `colls` holds each
collection's documents in insertion order, `nextOid` is the next opaque
identifier the store assigns, and `fail`, when set, makes every adapter call
raise that message (§4.1: calls fail with a store/connection error when the
store is unreachable). -/
structure Store where
  colls : String → List Doc
  nextOid : Nat
  fail : Option String

/-- Modelled from the spec: §4.1 `create_document(collection_name, data) -> id`
inserts the data as a new document carrying the store-assigned opaque
identifier and returns that identifier as a string. -/
def create_document (s : Store) (coll : String) (data : Doc) :
    Except String (String × Store) :=
  match s.fail with
  | some m => .error m
  | none =>
    .ok ((Value.oid s.nextOid).toStr,
      { s with
        colls := fun c =>
          if c = coll then s.colls c ++ [data.assign "_id" (Value.oid s.nextOid)]
          else s.colls c
        nextOid := s.nextOid + 1 })

/-- Exact-match check of a document against a filter (§4.1: documents
matching an exact-match filter on the provided fields). -/
def Doc.matchesFilter (d : Doc) (filt : Doc) : Bool :=
  filt.all (fun kv => d.lookup kv.1 == some kv.2)

/-- Modelled from the spec: §4.1 `get_documents(collection_name, filter,
limit)` returns the matching documents in store-native (insertion) order,
optionally capped at `limit`. -/
def get_documents (s : Store) (coll : String) (filt : Doc) (limit : Option Nat) :
    Except String (List Doc) :=
  match s.fail with
  | some m => .error m
  | none =>
    let ds := (s.colls coll).filter (fun d => d.matchesFilter filt)
    .ok (match limit with
         | none => ds
         | some n => ds.take n)

/-- Modelled from the spec: the seeder's count-based emptiness check,
`db["lesson"].count_documents(\x7b\x7d)` (§4.5). -/
def count_documents (s : Store) (coll : String) : Except String Nat :=
  match s.fail with
  | some m => .error m
  | none => .ok (s.colls coll).length

/-- From `main.py` lines 92-98: GET /api/lessons. -/
def list_lessons (s : Store) : Response :=
  match get_documents s "lesson" [] none with
  | .ok lessons => .ok (Body.docs (serialize_list lessons))
  | .error e => .httpError 500 e

/-- From `main.py` lines 101-107: GET /api/lessons/\x7blesson_id\x7d/words. -/
def list_words_for_lesson (s : Store) (lesson_id : String) : Response :=
  match get_documents s "word" [("lesson_id", Value.str lesson_id)] none with
  | .ok words => .ok (Body.docs (serialize_list words))
  | .error e => .httpError 500 e

/-- From `main.py` lines 82-87: the request-body schema `ProgressIn`. It
declares `user_id` and `lesson_id` required strings, `correct` and
`incorrect` integers defaulting to 0 with no lower bound, and an optional
`last_score`. -/
structure ProgressIn where
  user_id : String
  lesson_id : String
  correct : Int
  incorrect : Int
  last_score : Option Int
deriving DecidableEq, Repr

/-- Pydantic's `model_dump` of a `ProgressIn` payload, in field order. -/
def ProgressIn.model_dump (p : ProgressIn) : Doc :=
  [("user_id", Value.str p.user_id),
   ("lesson_id", Value.str p.lesson_id),
   ("correct", Value.int p.correct),
   ("incorrect", Value.int p.incorrect),
   ("last_score", match p.last_score with
                  | some i => Value.int i
                  | none => Value.null)]

/-- From `main.py` lines 110-119: POST /api/progress, after body
validation succeeded. -/
def submit_progress (s : Store) (payload : ProgressIn) : Response × Store :=
  match create_document s "progress" payload.model_dump with
  | .ok (new_id, s') =>
    (.ok (Body.dict [("id", .val (Value.str new_id)),
                     ("status", .val (Value.str "ok"))]), s')
  | .error e => (.httpError 500 e, s)

/-- From `main.py` lines 122-128: GET /api/progress/\x7buser_id\x7d/\x7blesson_id\x7d. -/
def get_progress (s : Store) (user_id lesson_id : String) : Response :=
  match get_documents s "progress"
      [("user_id", Value.str user_id), ("lesson_id", Value.str lesson_id)]
      (some 1) with
  | .ok docs =>
    match docs with
    | d :: _ => .ok (Body.dict (pyOfDoc (serialize_doc d)))
    | [] => .ok (Body.dict [("status", .val (Value.str "none"))])
  | .error e => .httpError 500 e

-- The seeder's fixed demo content (`main.py` lines 142-171).

/-- From `main.py` lines 142-146: the three demo lessons, in order. -/
def demo_lessons : List Doc :=
  [[("title", Value.str "צבעים"), ("english_title", Value.str "Colors"),
    ("description", Value.str "לומדים צבעים בסיסיים"),
    ("level", Value.str "beginner"), ("cover_emoji", Value.str "🎨")],
   [("title", Value.str "חיות"), ("english_title", Value.str "Animals"),
    ("description", Value.str "מכירים חיות נפוצות"),
    ("level", Value.str "beginner"), ("cover_emoji", Value.str "🐾")],
   [("title", Value.str "אוכל"), ("english_title", Value.str "Food"),
    ("description", Value.str "מילים על אוכל טעים"),
    ("level", Value.str "beginner"), ("cover_emoji", Value.str "🍎")]]

/-- From `main.py` lines 154-159: the four color words. -/
def color_words : List Doc :=
  [[("english", Value.str "red"), ("hebrew", Value.str "אדום")],
   [("english", Value.str "blue"), ("hebrew", Value.str "כחול")],
   [("english", Value.str "green"), ("hebrew", Value.str "ירוק")],
   [("english", Value.str "yellow"), ("hebrew", Value.str "צהוב")]]

/-- From `main.py` lines 160-165: the four animal words. -/
def animal_words : List Doc :=
  [[("english", Value.str "dog"), ("hebrew", Value.str "כלב")],
   [("english", Value.str "cat"), ("hebrew", Value.str "חתול")],
   [("english", Value.str "bird"), ("hebrew", Value.str "ציפור")],
   [("english", Value.str "fish"), ("hebrew", Value.str "דג")]]

/-- From `main.py` lines 166-171: the four food words. -/
def food_words : List Doc :=
  [[("english", Value.str "apple"), ("hebrew", Value.str "תפוח")],
   [("english", Value.str "bread"), ("hebrew", Value.str "לחם")],
   [("english", Value.str "milk"), ("hebrew", Value.str "חלב")],
   [("english", Value.str "cheese"), ("hebrew", Value.str "גבינה")]]

/-- The seeder's lesson loop (`main.py` lines 147-151): insert each demo
lesson, collecting the assigned ids in insertion order. -/
def insertLessons (s : Store) : List Doc → Except String (List String × Store)
  | [] => .ok ([], s)
  | l :: rest =>
    match create_document s "lesson" l with
    | .error m => .error m
    | .ok (lid, s') =>
      match insertLessons s' rest with
      | .error m => .error m
      | .ok (ids, s'') => .ok (lid :: ids, s'')

/-- One word loop of the seeder (`main.py` lines 173-181): insert each word
tagged with the given lesson id, counting the inserts. -/
def insertWords (s : Store) (lid : String) : List Doc → Except String (Nat × Store)
  | [] => .ok (0, s)
  | w :: rest =>
    match create_document s "word" (w.assign "lesson_id" (Value.str lid)) with
    | .error m => .error m
    | .ok (_, s') =>
      match insertWords s' lid rest with
      | .error m => .error m
      | .ok (n, s'') => .ok (n + 1, s'')

/-- From `main.py` lines 133-187: POST /api/seed. The count-based emptiness
check guards the writes; an out-of-range lesson-id index would surface as
Python's IndexError message through the route's generic handler. -/
def seed_content (s : Store) : Response × Store :=
  match count_documents s "lesson" with
  | .error e => (.httpError 500 e, s)
  | .ok lessons_count =>
    if lessons_count = 0 then
      match insertLessons s demo_lessons with
      | .error e => (.httpError 500 e, s)
      | .ok (lesson_ids, s1) =>
        match lesson_ids with
        | id0 :: id1 :: id2 :: _ =>
          match insertWords s1 id0 color_words with
          | .error e => (.httpError 500 e, s1)
          | .ok (c1, s2) =>
            match insertWords s2 id1 animal_words with
            | .error e => (.httpError 500 e, s2)
            | .ok (c2, s3) =>
              match insertWords s3 id2 food_words with
              | .error e => (.httpError 500 e, s3)
              | .ok (c3, s4) =>
                (.ok (Body.dict
                  [("status", .val (Value.str "ok")),
                   ("created", .dict
                     [("lessons", Value.int lesson_ids.length),
                      ("words", Value.int (c1 + c2 + c3))])]), s4)
        | _ => (.httpError 500 "list index out of range", s1)
    else
      (.ok (Body.dict
        [("status", .val (Value.str "exists")),
         ("message", .val (Value.str "Lessons already seeded"))]), s)

-- ------------------------------------------------------------------
-- Request-boundary validation (pydantic semantics for the two models).
-- ------------------------------------------------------------------

/-- Validate a required string field of a JSON body: present and a string. -/
def fieldStr (body : Doc) (k : String) : Option String :=
  match body.lookup k with
  | some (Value.str s) => some s
  | _ => none

/-- Validate an integer field with a default: absent yields the default,
an integer is taken as is, anything else is invalid. -/
def fieldIntDefault (body : Doc) (k : String) (dflt : Int) : Option Int :=
  match body.lookup k with
  | none => some dflt
  | some (Value.int i) => some i
  | _ => none

/-- Validate an optional integer field: absent or null yields none. -/
def fieldOptInt (body : Doc) (k : String) : Option (Option Int) :=
  match body.lookup k with
  | none => some none
  | some Value.null => some none
  | some (Value.int i) => some (some i)
  | _ => none

/-- Validation of a request body against `ProgressIn` (`main.py` lines
82-87): required strings `user_id`, `lesson_id`; integers `correct`,
`incorrect` defaulting to 0 with no declared lower bound; optional integer
`last_score`. Returns the payload, or the names of the invalid fields. -/
def validateProgressIn (body : Doc) : Except (List String) ProgressIn :=
  match fieldStr body "user_id", fieldStr body "lesson_id",
        fieldIntDefault body "correct" 0, fieldIntDefault body "incorrect" 0,
        fieldOptInt body "last_score" with
  | some u, some l, some c, some i, some ls => .ok ⟨u, l, c, i, ls⟩
  | u, l, c, i, ls =>
    .error ((if u.isSome then [] else ["user_id"]) ++
            (if l.isSome then [] else ["lesson_id"]) ++
            (if c.isSome then [] else ["correct"]) ++
            (if i.isSome then [] else ["incorrect"]) ++
            (if ls.isSome then [] else ["last_score"]))

/-- Validation of the same body against `schemas.py` lines 32-41
(`Progress`): identical fields, but `correct` and `incorrect` declare
`ge=0`, so a negative integer is invalid. -/
def validateProgressSchema (body : Doc) : Except (List String) ProgressIn :=
  match fieldStr body "user_id", fieldStr body "lesson_id",
        (fieldIntDefault body "correct" 0).filter (fun i => 0 ≤ i),
        (fieldIntDefault body "incorrect" 0).filter (fun i => 0 ≤ i),
        fieldOptInt body "last_score" with
  | some u, some l, some c, some i, some ls => .ok ⟨u, l, c, i, ls⟩
  | u, l, c, i, ls =>
    .error ((if u.isSome then [] else ["user_id"]) ++
            (if l.isSome then [] else ["lesson_id"]) ++
            (if c.isSome then [] else ["correct"]) ++
            (if i.isSome then [] else ["incorrect"]) ++
            (if ls.isSome then [] else ["last_score"]))

/-- POST /api/progress as seen at the HTTP boundary: the framework validates
the body against `ProgressIn` and answers 422 (listing the invalid fields,
the handler never runs) on failure; otherwise the handler `submit_progress`
runs. -/
def progress_route (s : Store) (body : Doc) : Response × Store :=
  match validateProgressIn body with
  | .error errs => (.httpError 422 (String.intercalate ", " errs), s)
  | .ok payload => submit_progress s payload

-- ------------------------------------------------------------------
-- GET /test (`main.py` lines 45-77).
-- ------------------------------------------------------------------

/-- Environment probed by GET /test. `dbCheck` is the `db is not None` probe
(an `.error` means touching the handle raised, caught by the route's outer
handler); `dbName` models `db.name`; `listCollections` models
`db.list_collection_names()` (an `.error` is a store error, caught by the
inner handler); `urlVal` and `nameVal` are the raw values of DATABASE_URL
and DATABASE_NAME, absent when unset. Modelled from the spec: §4.6 and §6 —
the store handle (`database.py`) and process environment are external to
the sources. -/
structure TestEnv where
  dbCheck : Except String Bool
  dbName : Option String
  listCollections : Except String (List String)
  urlVal : Option String
  nameVal : Option String

/-- Python truthiness of `os.getenv(...)`: set and non-empty. -/
def envTruthy : Option String → Bool
  | some s => s ≠ ""
  | none => false

/-- The response dict of GET /test, with the six fixed keys of `main.py`
lines 48-55; `database_url` and `database_name` are unconditionally
overwritten at lines 74-75, so only the set/not-set markers remain. -/
structure TestResponse where
  backend : String
  database : String
  database_url : String
  database_name : String
  connection_status : String
  collections : List String
deriving DecidableEq, Repr

/-- From `main.py` lines 45-77: the body built by GET /test. -/
def test_database (env : TestEnv) : TestResponse :=
  { backend := "✅ Running"
    database :=
      match env.dbCheck with
      | .error e => "❌ Error: " ++ e.take 50
      | .ok false => "⚠️  Available but not initialized"
      | .ok true =>
        match env.listCollections with
        | .ok _ => "✅ Connected & Working"
        | .error e => "⚠️  Connected but Error: " ++ e.take 50
    database_url := if envTruthy env.urlVal then "✅ Set" else "❌ Not Set"
    database_name := if envTruthy env.nameVal then "✅ Set" else "❌ Not Set"
    connection_status :=
      match env.dbCheck with
      | .ok true => "Connected"
      | _ => "Not Connected"
    collections :=
      match env.dbCheck with
      | .ok true =>
        match env.listCollections with
        | .ok cs => cs.take 10
        | .error _ => []
      | _ => [] }

/-- GET /test as a route: every path of the handler returns the body
normally, so the response is always a 200. -/
def test_route (env : TestEnv) : Response :=
  .ok (Body.dict
    [("backend", .val (Value.str (test_database env).backend)),
     ("database", .val (Value.str (test_database env).database)),
     ("database_url", .val (Value.str (test_database env).database_url)),
     ("database_name", .val (Value.str (test_database env).database_name)),
     ("connection_status", .val (Value.str (test_database env).connection_status)),
     ("collections", .strs (test_database env).collections)])

-- ------------------------------------------------------------------
-- Sample stores used by the witnesses.
-- ------------------------------------------------------------------

/-- A reachable store with empty collections and next identifier 0. -/
def emptyStore : Store :=
  { colls := fun _ => [], nextOid := 0, fail := none }

/-- An unreachable store: every adapter call raises "boom". -/
def downStore : Store :=
  { colls := fun _ => [], nextOid := 0, fail := some "boom" }

/-- A reachable store holding one progress record for ("u1", "l1"). -/
def progressStore : Store :=
  { colls := fun c =>
      if c = "progress" then
        [[("user_id", Value.str "u1"), ("lesson_id", Value.str "l1"),
          ("correct", Value.int 2), ("incorrect", Value.int 1),
          ("last_score", Value.null), ("_id", Value.oid 7)]]
      else []
    nextOid := 8
    fail := none }

-- ------------------------------------------------------------------
-- Claim theorems about the routes.
-- ------------------------------------------------------------------

/-- C7: when the store raises (message `m`), each of the five service routes
catches the exception and answers an HTTP 500 whose detail is exactly `m`. -/
theorem store_errors_map_to_500 (s : Store) (m lid u l : String) (p : ProgressIn)
    (hf : s.fail = some m) :
    list_lessons s = .httpError 500 m ∧
    list_words_for_lesson s lid = .httpError 500 m ∧
    (submit_progress s p).1 = .httpError 500 m ∧
    get_progress s u l = .httpError 500 m ∧
    (seed_content s).1 = .httpError 500 m := by
  refine ⟨?_, ?_, ?_, ?_, ?_⟩ <;>
    simp [list_lessons, list_words_for_lesson, submit_progress, get_progress,
          seed_content, get_documents, create_document, count_documents, hf]

/-- C7 witness: the unreachable sample store, at concrete inputs. -/
theorem store_errors_map_to_500_witness :
    list_lessons downStore = .httpError 500 "boom" ∧
    list_words_for_lesson downStore "L1" = .httpError 500 "boom" ∧
    (submit_progress downStore ⟨"u", "l", 0, 0, none⟩).1 = .httpError 500 "boom" ∧
    get_progress downStore "u" "l" = .httpError 500 "boom" ∧
    (seed_content downStore).1 = .httpError 500 "boom" :=
  store_errors_map_to_500 downStore "boom" "L1" "u" "l" ⟨"u", "l", 0, 0, none⟩ rfl

/-- C5: a successful submission answers `(id of the new record, "ok")` and
appends exactly one brand-new record to the progress collection (no merge
with prior records, other collections untouched); running a second
submission — in particular for the same user and lesson — appends a second,
distinct record. -/
theorem submit_progress_spec (s : Store) (p q : ProgressIn) (hf : s.fail = none) :
    (submit_progress s p).1
      = .ok (Body.dict [("id", .val (Value.str (Value.oid s.nextOid).toStr)),
                        ("status", .val (Value.str "ok"))]) ∧
    (submit_progress s p).2.colls "progress"
      = s.colls "progress" ++ [p.model_dump.assign "_id" (Value.oid s.nextOid)] ∧
    (∀ c, c ≠ "progress" → (submit_progress s p).2.colls c = s.colls c) ∧
    ((submit_progress (submit_progress s p).2 q).2.colls "progress"
      = s.colls "progress"
        ++ [p.model_dump.assign "_id" (Value.oid s.nextOid),
            q.model_dump.assign "_id" (Value.oid (s.nextOid + 1))]) ∧
    p.model_dump.assign "_id" (Value.oid s.nextOid)
      ≠ q.model_dump.assign "_id" (Value.oid (s.nextOid + 1)) := by
  refine ⟨?_, ?_, ?_, ?_, ?_⟩
  · simp [submit_progress, create_document, hf]
  · simp [submit_progress, create_document, hf]
  · intro c hc
    simp [submit_progress, create_document, hf, hc]
  · simp [submit_progress, create_document, hf]
  · intro h
    have h1 := congrArg (fun d => Doc.lookup d "_id") h
    have hp : (p.model_dump.assign "_id" (Value.oid s.nextOid)).lookup "_id"
        = some (Value.oid s.nextOid) := Doc.lookup_assign_self _ _ _
    have hq : (q.model_dump.assign "_id" (Value.oid (s.nextOid + 1))).lookup "_id"
        = some (Value.oid (s.nextOid + 1)) := Doc.lookup_assign_self _ _ _
    simp only [hp, hq, Option.some.injEq, Value.oid.injEq] at h1
    omega

/-- C5 witness: two submissions of the same payload against the empty
store. -/
theorem submit_progress_spec_witness :
    ((submit_progress emptyStore ⟨"u1", "l1", 2, 1, none⟩).1
      = .ok (Body.dict [("id", .val (Value.str (Value.oid 0).toStr)),
                        ("status", .val (Value.str "ok"))])) ∧
    ((submit_progress emptyStore ⟨"u1", "l1", 2, 1, none⟩).2.colls "progress"
      = [(⟨"u1", "l1", 2, 1, none⟩ : ProgressIn).model_dump.assign "_id" (Value.oid 0)]) ∧
    ((submit_progress (submit_progress emptyStore ⟨"u1", "l1", 2, 1, none⟩).2
        ⟨"u1", "l1", 2, 1, none⟩).2.colls "progress"
      = [(⟨"u1", "l1", 2, 1, none⟩ : ProgressIn).model_dump.assign "_id" (Value.oid 0),
         (⟨"u1", "l1", 2, 1, none⟩ : ProgressIn).model_dump.assign "_id" (Value.oid 1)]) ∧
    (⟨"u1", "l1", 2, 1, none⟩ : ProgressIn).model_dump.assign "_id" (Value.oid 0)
      ≠ (⟨"u1", "l1", 2, 1, none⟩ : ProgressIn).model_dump.assign "_id" (Value.oid 1) := by
  have h := submit_progress_spec emptyStore ⟨"u1", "l1", 2, 1, none⟩
    ⟨"u1", "l1", 2, 1, none⟩ rfl
  exact ⟨h.1, h.2.1, h.2.2.2.1, h.2.2.2.2⟩

/-- C6: GET /api/progress/u/l asks the store for at most one document
matching both ids exactly (limit 1, store order): every fetched document
matches both fields and at most one is fetched; when a match exists the
first one is returned serialized, and when none exists the route answers
200 with the sentinel status-none dict — never an error. -/
theorem get_progress_spec (s : Store) (u l : String) (hf : s.fail = none) :
    (get_documents s "progress"
        [("user_id", Value.str u), ("lesson_id", Value.str l)] (some 1)
      = .ok (((s.colls "progress").filter
          (fun d => d.matchesFilter
            [("user_id", Value.str u), ("lesson_id", Value.str l)])).take 1)) ∧
    (∀ ds, get_documents s "progress"
        [("user_id", Value.str u), ("lesson_id", Value.str l)] (some 1) = .ok ds →
      ds.length ≤ 1 ∧
      ∀ d ∈ ds, d.lookup "user_id" = some (Value.str u)
              ∧ d.lookup "lesson_id" = some (Value.str l)) ∧
    (∀ d rest, (s.colls "progress").filter
          (fun d => d.matchesFilter
            [("user_id", Value.str u), ("lesson_id", Value.str l)]) = d :: rest →
      get_progress s u l = .ok (Body.dict (pyOfDoc (serialize_doc d)))) ∧
    ((s.colls "progress").filter
          (fun d => d.matchesFilter
            [("user_id", Value.str u), ("lesson_id", Value.str l)]) = [] →
      get_progress s u l = .ok (Body.dict [("status", .val (Value.str "none"))])) := by
  refine ⟨?_, ?_, ?_, ?_⟩
  · simp [get_documents, hf]
  · intro ds hds
    simp only [get_documents, hf] at hds
    injection hds with hds
    subst hds
    constructor
    · simp [List.length_take]
    · intro d hd
      have hd' := List.mem_of_mem_take hd
      have hmatch := (List.mem_filter.mp hd').2
      simp only [Doc.matchesFilter, List.all_cons, List.all_nil, Bool.and_true,
        Bool.and_eq_true, beq_iff_eq] at hmatch
      exact hmatch
  · intro d rest hfil
    simp [get_progress, get_documents, hf, hfil]
  · intro hfil
    simp [get_progress, get_documents, hf, hfil]

/-- C6 witness: the sample store holding one record for ("u1", "l1"): that
pair is found and serialized, while ("u2", "l1") yields the sentinel. -/
theorem get_progress_spec_witness :
    (get_progress progressStore "u1" "l1"
      = .ok (Body.dict (pyOfDoc (serialize_doc
          [("user_id", Value.str "u1"), ("lesson_id", Value.str "l1"),
           ("correct", Value.int 2), ("incorrect", Value.int 1),
           ("last_score", Value.null), ("_id", Value.oid 7)])))) ∧
    (get_progress progressStore "u2" "l1"
      = .ok (Body.dict [("status", .val (Value.str "none"))])) := by
  constructor
  · exact (get_progress_spec progressStore "u1" "l1" rfl).2.2.1
      [("user_id", Value.str "u1"), ("lesson_id", Value.str "l1"),
       ("correct", Value.int 2), ("incorrect", Value.int 1),
       ("last_score", Value.null), ("_id", Value.oid 7)] [] (by decide)
  · exact (get_progress_spec progressStore "u2" "l1" rfl).2.2.2 (by decide)

/-- Serializing a document that carries `_id` yields a document exposing a
string `id` and no `_id` key at all. -/
theorem serialize_doc_hides_id (d : Doc) (v : Value) (hv : d.lookup "_id" = some v) :
    (serialize_doc d).lookup "id" = some (Value.str v.toStr)
      ∧ "_id" ∉ (serialize_doc d).keys := by
  have hnil : d ≠ [] := by
    intro h
    rw [h] at hv
    simp [Doc.lookup] at hv
  have hser : serialize_doc d = (d.erase "_id").assign "id" (Value.str v.toStr) := by
    simp [serialize_doc, hnil, hv]
  constructor
  · rw [hser]
    exact Doc.lookup_assign_self _ _ _
  · rw [hser]
    intro hmem
    exact Doc.keys_erase_not_mem _ _ (Doc.keys_assign_subset _ _ _ _ (by decide) hmem)

/-- C4: when every stored lesson and word carries the store-assigned `_id`,
both listing routes answer 200 with documents each exposing a string-valued
`id` and never containing the raw `_id` key. -/
theorem listing_routes_expose_only_id (s : Store) (lid : String)
    (hf : s.fail = none)
    (hl : ∀ d ∈ s.colls "lesson", ∃ v, d.lookup "_id" = some v)
    (hw : ∀ d ∈ s.colls "word", ∃ v, d.lookup "_id" = some v) :
    (∃ ds, list_lessons s = .ok (Body.docs ds) ∧
      ∀ d ∈ ds, (∃ s0, d.lookup "id" = some (Value.str s0)) ∧ "_id" ∉ d.keys) ∧
    (∃ ds, list_words_for_lesson s lid = .ok (Body.docs ds) ∧
      ∀ d ∈ ds, (∃ s0, d.lookup "id" = some (Value.str s0)) ∧ "_id" ∉ d.keys) := by
  constructor
  · refine ⟨serialize_list (s.colls "lesson"), ?_, ?_⟩
    · simp [list_lessons, get_documents, hf, Doc.matchesFilter]
    · intro d hd
      obtain ⟨d0, hd0, rfl⟩ := List.mem_map.mp hd
      obtain ⟨v, hv⟩ := hl d0 hd0
      have h := serialize_doc_hides_id d0 v hv
      exact ⟨⟨v.toStr, h.1⟩, h.2⟩
  · refine ⟨serialize_list ((s.colls "word").filter
      (fun d => d.matchesFilter [("lesson_id", Value.str lid)])), ?_, ?_⟩
    · simp [list_words_for_lesson, get_documents, hf]
    · intro d hd
      obtain ⟨d0, hd0, rfl⟩ := List.mem_map.mp hd
      obtain ⟨v, hv⟩ := hw d0 (List.mem_of_mem_filter hd0)
      have h := serialize_doc_hides_id d0 v hv
      exact ⟨⟨v.toStr, h.1⟩, h.2⟩

/-- C4 witness: a store holding one lesson and one word, both with `_id`. -/
theorem listing_routes_expose_only_id_witness :
    (∃ ds, list_lessons
        { colls := fun c =>
            if c = "lesson" then
              [[("title", Value.str "צבעים"), ("_id", Value.oid 1)]]
            else if c = "word" then
              [[("english", Value.str "red"), ("lesson_id", Value.str "1"),
                ("_id", Value.oid 2)]]
            else []
          nextOid := 3
          fail := none } = .ok (Body.docs ds) ∧
      ∀ d ∈ ds, (∃ s0, d.lookup "id" = some (Value.str s0)) ∧ "_id" ∉ d.keys) ∧
    (∃ ds, list_words_for_lesson
        { colls := fun c =>
            if c = "lesson" then
              [[("title", Value.str "צבעים"), ("_id", Value.oid 1)]]
            else if c = "word" then
              [[("english", Value.str "red"), ("lesson_id", Value.str "1"),
                ("_id", Value.oid 2)]]
            else []
          nextOid := 3
          fail := none } "1" = .ok (Body.docs ds) ∧
      ∀ d ∈ ds, (∃ s0, d.lookup "id" = some (Value.str s0)) ∧ "_id" ∉ d.keys) := by
  refine listing_routes_expose_only_id _ "1" rfl ?_ ?_
  · intro d hd
    simp at hd
    subst hd
    exact ⟨Value.oid 1, by decide⟩
  · intro d hd
    simp at hd
    subst hd
    exact ⟨Value.oid 2, by decide⟩

/-- Truncation `[:50]` never yields more than 50 characters. -/
theorem take_le_length (s : String) (n : Nat) : (s.take n).length ≤ n := by
  rw [String.take_eq]
  show (s.1.take n).length ≤ n
  simp

/-- C8: GET /test always answers 200, whatever the store does; a store error
raised while probing the database is caught and rendered in the body
truncated to 50 characters; and the body depends only on whether
DATABASE_URL and DATABASE_NAME are set (reported as fixed markers), never on
their values nor on the database name. -/
theorem test_route_spec (env : TestEnv) :
    (∃ b, test_route env = .ok b) ∧
    (∀ e, env.dbCheck = .ok true → env.listCollections = .error e →
      (test_database env).database = "⚠️  Connected but Error: " ++ e.take 50
        ∧ (e.take 50).length ≤ 50) ∧
    (∀ e, env.dbCheck = .error e →
      (test_database env).database = "❌ Error: " ++ e.take 50
        ∧ (e.take 50).length ≤ 50) ∧
    ((test_database env).database_url = "✅ Set"
        ∨ (test_database env).database_url = "❌ Not Set") ∧
    ((test_database env).database_name = "✅ Set"
        ∨ (test_database env).database_name = "❌ Not Set") ∧
    (∀ env2 : TestEnv, env2.dbCheck = env.dbCheck
        → env2.listCollections = env.listCollections
        → envTruthy env2.urlVal = envTruthy env.urlVal
        → envTruthy env2.nameVal = envTruthy env.nameVal
        → test_database env2 = test_database env) := by
  refine ⟨⟨_, rfl⟩, ?_, ?_, ?_, ?_, ?_⟩
  · intro e h1 h2
    exact ⟨by simp [test_database, h1, h2], take_le_length e 50⟩
  · intro e h1
    exact ⟨by simp [test_database, h1], take_le_length e 50⟩
  · by_cases h : envTruthy env.urlVal
    · exact Or.inl (by simp [test_database, h])
    · exact Or.inr (by simp [test_database, h])
  · by_cases h : envTruthy env.nameVal
    · exact Or.inl (by simp [test_database, h])
    · exact Or.inr (by simp [test_database, h])
  · intro env2 h1 h2 h3 h4
    simp only [test_database, h1, h2, h3, h4]

/-- C8 witness: a configured environment whose collection listing raises a
64-character store error; the rendering keeps only the first 50. -/
theorem test_route_spec_witness :
    (∃ b, test_route
      { dbCheck := .ok true, dbName := some "app",
        listCollections :=
          .error "connection refused: could not reach primary node of replica set",
        urlVal := some "mongodb://secret-host/db", nameVal := none } = .ok b) ∧
    ((test_database
      { dbCheck := .ok true, dbName := some "app",
        listCollections :=
          .error "connection refused: could not reach primary node of replica set",
        urlVal := some "mongodb://secret-host/db", nameVal := none }).database
      = "⚠️  Connected but Error: "
        ++ ("connection refused: could not reach primary node of replica set".take 50)) ∧
    ("connection refused: could not reach primary node of replica set".take 50).length
      ≤ 50 := by
  have h := test_route_spec
    { dbCheck := .ok true, dbName := some "app",
      listCollections :=
        .error "connection refused: could not reach primary node of replica set",
      urlVal := some "mongodb://secret-host/db", nameVal := none }
  exact ⟨h.1,
    (h.2.1 "connection refused: could not reach primary node of replica set" rfl rfl).1,
    (h.2.1 "connection refused: could not reach primary node of replica set" rfl rfl).2⟩

/-- A progress body with a negative `correct` count. -/
def negBody : Doc :=
  [("user_id", Value.str "u1"), ("lesson_id", Value.str "l1"),
   ("correct", Value.int (-1))]

/-- A progress body missing the required `user_id`. -/
def noUserBody : Doc :=
  [("lesson_id", Value.str "l1")]

/-- C2 (evaluation at the failing input): a body with `correct = -1` passes
the boundary — `ProgressIn` declares no lower bound — so the handler runs
and inserts a record with `correct = -1`, although the same body violates
`schemas.Progress` (which declares `ge=0`); a body missing `user_id` is, as
claimed, rejected with 422 before any insert. -/
theorem progress_negative_accepted :
    validateProgressIn negBody = .ok ⟨"u1", "l1", -1, 0, none⟩ ∧
    validateProgressSchema negBody = .error ["correct"] ∧
    (progress_route emptyStore negBody).1
      = .ok (Body.dict [("id", .val (Value.str (Value.oid 0).toStr)),
                        ("status", .val (Value.str "ok"))]) ∧
    (progress_route emptyStore negBody).2.colls "progress"
      = [(⟨"u1", "l1", -1, 0, none⟩ : ProgressIn).model_dump.assign
          "_id" (Value.oid 0)] ∧
    (∃ d ∈ (progress_route emptyStore negBody).2.colls "progress",
       d.lookup "correct" = some (Value.int (-1))) ∧
    progress_route emptyStore noUserBody = (.httpError 422 "user_id", emptyStore) := by
  refine ⟨rfl, rfl, rfl, rfl, ?_, rfl⟩
  exact ⟨(⟨"u1", "l1", -1, 0, none⟩ : ProgressIn).model_dump.assign
          "_id" (Value.oid 0), by decide, by decide⟩

/-- The lesson ids the seeder collects, in insertion order, when the store's
next opaque identifier is `n`. -/
def seededIds (n : Nat) : List String :=
  [(Value.oid n).toStr, (Value.oid (n + 1)).toStr, (Value.oid (n + 2)).toStr]

/-- The three lesson documents the seeder stores when the next identifier
is `n`. -/
def seededLessons (n : Nat) : List Doc :=
  [(demo_lessons.getD 0 []).assign "_id" (Value.oid n),
   (demo_lessons.getD 1 []).assign "_id" (Value.oid (n + 1)),
   (demo_lessons.getD 2 []).assign "_id" (Value.oid (n + 2))]

/-- The twelve word documents the seeder stores when the next identifier is
`n`: the four color words tagged with the first lesson id, the four animal
words with the second, the four food words with the third. -/
def seededWords (n : Nat) : List Doc :=
  [((color_words.getD 0 []).assign "lesson_id"
      (Value.str (Value.oid n).toStr)).assign "_id" (Value.oid (n + 3)),
   ((color_words.getD 1 []).assign "lesson_id"
      (Value.str (Value.oid n).toStr)).assign "_id" (Value.oid (n + 4)),
   ((color_words.getD 2 []).assign "lesson_id"
      (Value.str (Value.oid n).toStr)).assign "_id" (Value.oid (n + 5)),
   ((color_words.getD 3 []).assign "lesson_id"
      (Value.str (Value.oid n).toStr)).assign "_id" (Value.oid (n + 6)),
   ((animal_words.getD 0 []).assign "lesson_id"
      (Value.str (Value.oid (n + 1)).toStr)).assign "_id" (Value.oid (n + 7)),
   ((animal_words.getD 1 []).assign "lesson_id"
      (Value.str (Value.oid (n + 1)).toStr)).assign "_id" (Value.oid (n + 8)),
   ((animal_words.getD 2 []).assign "lesson_id"
      (Value.str (Value.oid (n + 1)).toStr)).assign "_id" (Value.oid (n + 9)),
   ((animal_words.getD 3 []).assign "lesson_id"
      (Value.str (Value.oid (n + 1)).toStr)).assign "_id" (Value.oid (n + 10)),
   ((food_words.getD 0 []).assign "lesson_id"
      (Value.str (Value.oid (n + 2)).toStr)).assign "_id" (Value.oid (n + 11)),
   ((food_words.getD 1 []).assign "lesson_id"
      (Value.str (Value.oid (n + 2)).toStr)).assign "_id" (Value.oid (n + 12)),
   ((food_words.getD 2 []).assign "lesson_id"
      (Value.str (Value.oid (n + 2)).toStr)).assign "_id" (Value.oid (n + 13)),
   ((food_words.getD 3 []).assign "lesson_id"
      (Value.str (Value.oid (n + 2)).toStr)).assign "_id" (Value.oid (n + 14))]

/-- C1: POST /api/seed on an empty lesson collection inserts exactly 3
lessons and exactly 12 words — each word tagged with the lesson id at its
position `i / 4` of the insertion-order id list — and answers
`status "ok"` with created counts 3 and 12; on a non-empty lesson
collection it answers `status "exists"` and leaves the store untouched. -/
theorem seed_content_spec (s : Store) (hf : s.fail = none) :
    (s.colls "lesson" = [] →
      ∃ s', seed_content s = (.ok (Body.dict
          [("status", .val (Value.str "ok")),
           ("created", .dict [("lessons", Value.int 3),
                              ("words", Value.int 12)])]), s') ∧
        s'.colls "lesson" = seededLessons s.nextOid ∧
        s'.colls "word" = s.colls "word" ++ seededWords s.nextOid ∧
        (∀ c, c ≠ "lesson" → c ≠ "word" → s'.colls c = s.colls c) ∧
        (seededLessons s.nextOid).length = 3 ∧
        (seededWords s.nextOid).length = 12 ∧
        (∀ i, i < 12 → ((seededWords s.nextOid).getD i []).lookup "lesson_id"
            = some (Value.str ((seededIds s.nextOid).getD (i / 4) ""))) ∧
        (∀ i, i < 3 → ((seededLessons s.nextOid).getD i []).lookup "_id"
            = some (Value.oid (s.nextOid + i)))) ∧
    (s.colls "lesson" ≠ [] →
      seed_content s = (.ok (Body.dict
        [("status", .val (Value.str "exists")),
         ("message", .val (Value.str "Lessons already seeded"))]), s)) := by
  obtain ⟨colls0, n0, fail0⟩ := s
  dsimp only at hf
  subst hf
  constructor
  · intro hempty
    dsimp only at hempty
    refine ⟨(seed_content ⟨colls0, n0, none⟩).2, ?_, ?_, ?_, ?_, ?_, ?_, ?_, ?_⟩
    · have h1 : (seed_content ⟨colls0, n0, none⟩).1 = .ok (Body.dict
          [("status", .val (Value.str "ok")),
           ("created", .dict [("lessons", Value.int 3),
                              ("words", Value.int 12)])]) := by
        simp [seed_content, count_documents, insertLessons, insertWords,
          create_document, demo_lessons, color_words, animal_words, food_words,
          hempty]
      rw [← h1]
    · simp [seed_content, count_documents, insertLessons, insertWords,
        create_document, demo_lessons, color_words, animal_words, food_words,
        hempty, seededLessons, add_assoc]
    · simp [seed_content, count_documents, insertLessons, insertWords,
        create_document, demo_lessons, color_words, animal_words, food_words,
        hempty, seededWords, add_assoc]
    · intro c hc1 hc2
      simp [seed_content, count_documents, insertLessons, insertWords,
        create_document, demo_lessons, color_words, animal_words, food_words,
        hempty, hc1, hc2]
    · simp [seededLessons]
    · simp [seededWords]
    · intro i hi
      interval_cases i <;>
        simp [seededWords, seededIds, color_words, animal_words, food_words,
          Doc.assign, Doc.assignIn, Doc.lookup]
    · intro i hi
      interval_cases i <;>
        simp [seededLessons, demo_lessons, Doc.assign, Doc.assignIn, Doc.lookup]
  · intro hne
    dsimp only at hne
    simp [seed_content, count_documents, List.length_eq_zero, hne]

/-- C1 witness: seeding the empty store creates the 3 lessons and 12 tagged
words; seeding the resulting store again reports "exists" and returns the
store unchanged. -/
theorem seed_content_spec_witness :
    (∃ s', seed_content emptyStore = (.ok (Body.dict
        [("status", .val (Value.str "ok")),
         ("created", .dict [("lessons", Value.int 3),
                            ("words", Value.int 12)])]), s') ∧
      s'.colls "lesson" = seededLessons 0 ∧
      s'.colls "word" = emptyStore.colls "word" ++ seededWords 0 ∧
      (∀ c, c ≠ "lesson" → c ≠ "word" → s'.colls c = emptyStore.colls c) ∧
      (seededLessons 0).length = 3 ∧
      (seededWords 0).length = 12 ∧
      (∀ i, i < 12 → ((seededWords 0).getD i []).lookup "lesson_id"
          = some (Value.str ((seededIds 0).getD (i / 4) ""))) ∧
      (∀ i, i < 3 → ((seededLessons 0).getD i []).lookup "_id"
          = some (Value.oid (0 + i)))) ∧
    seed_content (seed_content emptyStore).2
      = (.ok (Body.dict
          [("status", .val (Value.str "exists")),
           ("message", .val (Value.str "Lessons already seeded"))]),
         (seed_content emptyStore).2) := by
  refine ⟨(seed_content_spec emptyStore rfl).1 rfl, ?_⟩
  exact (seed_content_spec (seed_content emptyStore).2 rfl).2 (by decide)
